import Mathlib

/-!
Shallow embedding of the geo_app repository (src/app/processing/ShapeCropper.py
and src/app/processing/MergeRaster.py) and verification of its specification.

The program is an orchestration layer over the external geospatial libraries
rasterio and geopandas.  Pure data is translated into Lean structures; the
side effects the spec talks about (directory creation, file writing, raster
dataset handles) are made explicit in a `World` state, and Python exceptions
become the error component of `EStateM PyErr World`.  The external library
primitives that are out of scope for the repository (mosaic computation,
reprojection, mask, overlay, which files exist on disk) are parameters of an
`Env` record; the few facts about the external libraries that the spec itself
relies on (rasterio's merge indexes the first dataset; geopandas' overlay
accepts only loaded GeoDataFrames) are modelled explicitly where noted.
-/

namespace GeoApp

/-- Python exceptions that the embedded code can raise. -/
inductive PyErr where
  /-- `ValueError(msg)` raised by `GeoData.__post_init__`. -/
  | valueError (msg : String)
  /-- `AttributeError` from reading an attribute that does not exist. -/
  | attributeError (attr : String)
  /-- `IndexError` from indexing past the end of a list. -/
  | indexError
  /-- Error raised by `rasterio.open` on an unopenable path. -/
  | rasterioOpenError (path : String)
  /-- Error raised by `geopandas.read_file` on an unreadable path. -/
  | readError (path : String)
  /-- `NotImplementedError` raised by `geopandas.overlay` on a non-GeoDataFrame argument. -/
  | notImplementedError
  /-- `TypeError`, e.g. `rasterio.open(None)`. -/
  | typeError
  /-- Geometric error from `rasterio.mask.mask` (e.g. shapes outside raster). -/
  | maskError
  /-- Error opening the output path for writing. -/
  | openWriteError (path : String)
deriving DecidableEq

/-- Opaque geometry identifier (polygon geometry held by a vector layer). -/
abbrev Geom := Nat

/-- Opaque affine geo-transform produced by the external library. -/
abbrev Affine := Nat

/-- A pixel array as returned by rasterio: `shape = (bands, rows, cols)`,
with opaque pixel data. `shape1` is `arr.shape[1]` (height) and `shape2`
is `arr.shape[2]` (width). -/
structure PixArray where
  shape0 : Nat
  shape1 : Nat
  shape2 : Nat
  data : Nat
deriving DecidableEq

/-- The rasterio metadata dictionary of a dataset (`dataset.meta`): the
fields the program reads or updates, plus the fields it copies unchanged. -/
structure RasterMeta where
  driver : String
  height : Nat
  width : Nat
  transform : Affine
  crs : String
  count : Nat
  dtype : String
deriving DecidableEq

/-- The on-disk content of a raster file as seen through `rasterio.open`:
its metadata and its pixel grid. -/
structure RasterSrc where
  meta : RasterMeta
  pix : PixArray
deriving DecidableEq

/-- An opened rasterio dataset: the source it reads plus the identifier of
the file handle acquired by `rasterio.open`. -/
structure Dataset where
  src : RasterSrc
  handle : Nat
deriving DecidableEq

/-- `dataset.crs` as rasterio exposes it (consistent with `meta["crs"]`). -/
def Dataset.crs (d : Dataset) : String := d.src.meta.crs

/-- A geopandas GeoDataFrame: a CRS together with its geometry column. -/
structure GeoDataFrame where
  crs : String
  geometry : List Geom
deriving DecidableEq

/-- A dynamically typed Python value, used where the source passes values of
uncertain type (attribute lookups, the second argument of `gpd.overlay`). -/
inductive PyObj where
  | str (s : String)
  | geodf (df : GeoDataFrame)
  | pynone
deriving DecidableEq

/-- Content of a file written by the program. -/
inductive FileData where
  | raster (meta : RasterMeta) (pix : PixArray)
  | vector (df : GeoDataFrame)
deriving DecidableEq

/-- The mutable world: directories that exist, files written (most recent
first), the identifiers of currently open raster dataset handles, and the
next fresh handle identifier. -/
structure World where
  dirs : List String
  files : List (String × FileData)
  openHandles : List Nat
  nextHandle : Nat
deriving DecidableEq

/-- The external environment: what is on disk and the out-of-scope geospatial
primitives (reprojection, mask, mosaic, overlay), plus which output paths are
writable. -/
structure Env where
  /-- What `rasterio.open` finds at a path (`none` = the open fails). -/
  rasters : String → Option RasterSrc
  /-- What `gpd.read_file` finds at a path (`none` = the read fails). -/
  shapes : String → Option GeoDataFrame
  /-- External reprojection of geometries from one CRS to another. -/
  reproject : List Geom → String → String → List Geom
  /-- External `rasterio.mask.mask` computation on a dataset's data, the
  shapes, and the `crop` flag; may fail geometrically. -/
  mask : RasterSrc → List Geom → Bool → Except PyErr (PixArray × Affine)
  /-- External mosaic computation of `rasterio.merge.merge` on a non-empty
  list of datasets. -/
  mergeResult : List RasterSrc → PixArray × Affine
  /-- External `gpd.overlay` computation on two loaded GeoDataFrames. -/
  overlayResult : GeoDataFrame → GeoDataFrame → String → GeoDataFrame
  /-- Whether a path can be opened for writing. -/
  writable : String → Bool

/-- The monad of the embedded program: Python exceptions over the `World`
state (an uncaught exception propagates, carrying the state reached so far). -/
abbrev M (α : Type) : Type := EStateM PyErr World α

/-- `os.path.join` for the joins the program performs. -/
def joinPath (a b : String) : String := if a = "" then b else a ++ "/" ++ b

/-- Characters strictly before the last path separator of the list. -/
def dirnameChars : List Char → List Char
  | [] => []
  | c :: cs => if ('/' : Char) ∈ cs then c :: dirnameChars cs else []

/-- `os.path.dirname`: everything before the last `/`, the empty string when
the path has no separator. -/
def dirname (s : String) : String :=
  String.mk (dirnameChars s.data)

/-- Python truthiness of an `Optional[str]`: `None` and `""` are falsy. -/
def truthy : Option String → Bool
  | none => false
  | some s => !s.isEmpty

/-- The effect of `Path(p).mkdir(parents=True, exist_ok=True)` on the world:
create the directory if it is absent; existing directories are unchanged. -/
def mkdirApply (p : String) (w : World) : World :=
  if w.dirs.contains p then w else { w with dirs := p :: w.dirs }

/-- `Path(p).mkdir(parents=True, exist_ok=True)`. -/
def mkdirP (p : String) : M Unit :=
  modify (mkdirApply p)

/-- `rasterio.open(path)` for reading: fails with `TypeError` on `None`,
propagates the library's open error on an unopenable path, and otherwise
acquires a fresh dataset handle, which stays open until explicitly closed. -/
def rasterio_open (env : Env) (path : Option String) : M Dataset := do
  match path with
  | none => throw PyErr.typeError
  | some p =>
    match env.rasters p with
    | none => throw (PyErr.rasterioOpenError p)
    | some src =>
      let w ← get
      set { w with openHandles := w.nextHandle :: w.openHandles,
                   nextHandle := w.nextHandle + 1 }
      pure ⟨src, w.nextHandle⟩

/-- `gpd.read_file(path)`. -/
def gpd_read_file (env : Env) (path : String) : M GeoDataFrame :=
  match env.shapes path with
  | some df => pure df
  | none => throw (PyErr.readError path)

/-- `df.to_crs(crs)`: reproject the geometries to the target CRS. -/
def GeoDataFrame.to_crs (env : Env) (df : GeoDataFrame) (crs : String) :
    GeoDataFrame :=
  { crs := crs, geometry := env.reproject df.geometry df.crs crs }

/-- `rasterio.mask.mask(dataset, shapes, crop)`: the external computation,
whose geometric failure propagates as an exception. -/
def rasterio_mask (env : Env) (d : Dataset) (shapes : List Geom)
    (crop : Bool) : M (PixArray × Affine) :=
  match env.mask d.src shapes crop with
  | .ok r => pure r
  | .error e => throw e

/-- `rasterio.merge.merge(datasets)`: the library reads the first dataset of
the list to seed the mosaic, so the empty list raises an index error (the
spec: "fails if raster_paths is empty (index error upstream)"); on a
non-empty list the external mosaic primitive produces the merged pixel array
and transform. -/
def rasterio_merge (env : Env) (datasets : List Dataset) :
    M (PixArray × Affine) :=
  match datasets with
  | [] => throw PyErr.indexError
  | _ :: _ => pure (env.mergeResult (datasets.map Dataset.src))

/-- `gpd.overlay(df1, df2, how)`: geopandas' overlay accepts only loaded
GeoDataFrames (the spec: "the vector layer must actually be loaded (as a
geometry table) before overlay"); any other value for the second argument
raises `NotImplementedError`. -/
def gpd_overlay (env : Env) (df1 : GeoDataFrame) (df2 : PyObj)
    (how : String) : M GeoDataFrame :=
  match df2 with
  | .geodf d => pure (env.overlayResult df1 d how)
  | _ => throw PyErr.notImplementedError

/-- An `Optional[str]` field as the dynamic Python value it holds. -/
def pyOfOptStr : Option String → PyObj
  | some s => .str s
  | none => .pynone

/-- `with rasterio.open(path, "w", **meta) as dst: dst.write(arr)` — the
output handle is acquired, the file is written, and the `with` block closes
the handle on exit; if the path cannot be opened for writing the open error
propagates and no handle is acquired. -/
def withOpenWrite (env : Env) (path : String) (content : FileData) :
    M Unit := do
  if env.writable path then
    let w ← get
    let h := w.nextHandle
    set { w with openHandles := h :: w.openHandles, nextHandle := h + 1 }
    modify fun w1 => { w1 with files := (path, content) :: w1.files }
    modify fun w2 => { w2 with openHandles := w2.openHandles.erase h }
  else
    throw (PyErr.openWriteError path)

/-- `gdf.to_file(path)` for the vector outputs. -/
def vector_to_file (df : GeoDataFrame) (path : String) : M Unit :=
  modify fun w => { w with files := (path, FileData.vector df) :: w.files }

/-! ## GeoData (ShapeCropper.py lines 15-43) -/

/-- The declared fields of the `GeoData` dataclass.  `output_path` defaults
in the source to `os.path.join(os.getcwd(), "output")`; the working
directory is environment-specific, so the field is kept explicit here. -/
structure GeoData where
  shapefile_path : String
  raster_path : Option String := none
  vector_path : Option String := none
  output_path : String
deriving DecidableEq

/-- A constructed `GeoData` object after `__post_init__` has run: the
dataclass fields plus the dynamically added `output_raster_path` /
`output_vector_path` attributes (present only when set by `__post_init__`). -/
structure GeoJob where
  data : GeoData
  output_raster_path : Option String
  output_vector_path : Option String
deriving DecidableEq

/-- `GeoData.__post_init__`: validate that at least one of `raster_path` /
`vector_path` is truthy (`raise ValueError` otherwise, before any directory
is touched); then create the output directory, and conditionally the
`output_raster` / `output_vector` subdirectories, recording the derived
attribute paths. -/
def GeoData.post_init (gd : GeoData) : M GeoJob := do
  if !truthy gd.raster_path && !truthy gd.vector_path then
    throw (PyErr.valueError "At least one of raster or vector file should exist.")
  mkdirP gd.output_path
  let orp ←
    if truthy gd.raster_path then do
      let p := joinPath gd.output_path "output_raster"
      mkdirP p
      pure (some p)
    else
      pure none
  let ovp ←
    if truthy gd.vector_path then do
      let p := joinPath gd.output_path "output_vector"
      mkdirP p
      pure (some p)
    else
      pure none
  pure ⟨gd, orp, ovp⟩

/-- Python attribute lookup on a constructed `GeoData` object: the dataclass
fields, plus the attributes `__post_init__` may have added; any other name —
in particular `get_crs` — is not defined and the lookup fails. -/
def GeoJob.getattr (j : GeoJob) : String → Option PyObj
  | "shapefile_path" => some (.str j.data.shapefile_path)
  | "raster_path" => some (pyOfOptStr j.data.raster_path)
  | "vector_path" => some (pyOfOptStr j.data.vector_path)
  | "output_path" => some (.str j.data.output_path)
  | "output_raster_path" => j.output_raster_path.map .str
  | "output_vector_path" => j.output_vector_path.map .str
  | _ => none

/-- A CRS value out of a dynamic Python value (only ever reached if an
attribute lookup produced a value). -/
def crsOfPyObj : PyObj → String
  | .str s => s
  | _ => ""

/-! ## RasterCropper (ShapeCropper.py lines 66-104) -/

/-- `RasterCropper` after `__post_init__`: the job and the opened raster. -/
structure RasterCropper where
  geo_data : GeoJob
  raster : Dataset
deriving DecidableEq

/-- `RasterCropper.__post_init__`: open the raster file once and keep the
handle for later use. -/
def RasterCropper.mk' (env : Env) (j : GeoJob) : M RasterCropper := do
  let r ← rasterio_open env j.data.raster_path
  pure ⟨j, r⟩

/-- `RasterCropper.transform_crs`: read the shapefile and reproject it to
the CRS of the raster file. -/
def RasterCropper.transform_crs (env : Env) (rc : RasterCropper) :
    M GeoDataFrame := do
  let shapefile ← gpd_read_file env rc.geo_data.data.shapefile_path
  pure (shapefile.to_crs env rc.raster.crs)

/-- `RasterCropper.crop`: mask the raster with the reprojected shapefile's
geometry, with `crop=True`. -/
def RasterCropper.crop (env : Env) (rc : RasterCropper) :
    M (PixArray × Affine) := do
  let shapefile_transformed ← rc.transform_crs env
  rasterio_mask env rc.raster shapefile_transformed.geometry true

/-- `RasterCropper.execute`: crop, update the metadata fields driver /
height / width / transform, and write the result to
`output_raster_path/raster_cropped.tif`. -/
def RasterCropper.execute (env : Env) (rc : RasterCropper) : M Unit := do
  let (raster_cropped, raster_transform) ← rc.crop env
  let raster_meta := { rc.raster.src.meta with
      driver := "GTiff",
      height := raster_cropped.shape1,
      width := raster_cropped.shape2,
      transform := raster_transform }
  match rc.geo_data.getattr "output_raster_path" with
  | some (.str orp) =>
      withOpenWrite env (joinPath orp "raster_cropped.tif")
        (FileData.raster raster_meta raster_cropped)
  | _ => throw (PyErr.attributeError "output_raster_path")

/-- Construction followed by execution of a `RasterCropper`, as the program
uses it. -/
def raster_cropper_run (env : Env) (j : GeoJob) : M Unit := do
  let rc ← RasterCropper.mk' env j
  rc.execute env

/-! ## VectorCropper (ShapeCropper.py lines 108-137) -/

/-- `VectorCropper` after `__post_init__`: the job and the loaded shapefile. -/
structure VectorCropper where
  geo_data : GeoJob
  shapefile : GeoDataFrame
deriving DecidableEq

/-- `VectorCropper.__post_init__`: read the shapefile. -/
def VectorCropper.mk' (env : Env) (j : GeoJob) : M VectorCropper := do
  let sf ← gpd_read_file env j.data.shapefile_path
  pure ⟨j, sf⟩

/-- `VectorCropper.transform_crs`: the source reads
`self.geo_data.get_crs`, an attribute never defined on `GeoData`, so the
lookup raises `AttributeError`; were the attribute present, its value would
be passed to `to_crs`. -/
def VectorCropper.transform_crs (env : Env) (vc : VectorCropper) :
    M GeoDataFrame := do
  match vc.geo_data.getattr "get_crs" with
  | none => throw (PyErr.attributeError "get_crs")
  | some v => pure (vc.shapefile.to_crs env (crsOfPyObj v))

/-- `VectorCropper.crop`: overlay the reprojected shapefile with
`self.geo_data.vector_path` — a raw path value, not a loaded layer. -/
def VectorCropper.crop (env : Env) (vc : VectorCropper) : M GeoDataFrame := do
  let shapefile_transformed ← vc.transform_crs env
  gpd_overlay env shapefile_transformed (pyOfOptStr vc.geo_data.data.vector_path)
    "intersection"

/-- `VectorCropper.execute`: crop, then write the result to
`output_vector_path/vector_cropped.shp`. -/
def VectorCropper.execute (env : Env) (vc : VectorCropper) : M Unit := do
  let vector_cropped ← vc.crop env
  match vc.geo_data.getattr "output_vector_path" with
  | some (.str ovp) =>
      vector_to_file vector_cropped (joinPath ovp "vector_cropped.shp")
  | _ => throw (PyErr.attributeError "output_vector_path")

/-! ## BothCropper (ShapeCropper.py lines 141-183) -/

/-- `BothCropper` after `__post_init__`: the job, the opened raster and the
loaded shapefile. -/
structure BothCropper where
  geo_data : GeoJob
  raster : Dataset
  shapefile : GeoDataFrame
deriving DecidableEq

/-- `BothCropper.__post_init__`: open the raster, then read the shapefile. -/
def BothCropper.mk' (env : Env) (j : GeoJob) : M BothCropper := do
  let r ← rasterio_open env j.data.raster_path
  let sf ← gpd_read_file env j.data.shapefile_path
  pure ⟨j, r, sf⟩

/-- `BothCropper.transform_crs`: reproject the shapefile to the raster's CRS. -/
def BothCropper.transform_crs (env : Env) (bc : BothCropper) :
    M GeoDataFrame :=
  pure (bc.shapefile.to_crs env bc.raster.crs)

/-- `BothCropper.crop`: mask the raster with the reprojected shapefile
(`crop=True`), then overlay the same reprojected shapefile with
`self.geo_data.vector_path` (a raw path value). -/
def BothCropper.crop (env : Env) (bc : BothCropper) :
    M (PixArray × Affine × GeoDataFrame) := do
  let shapefile_transformed ← bc.transform_crs env
  let (raster_cropped, raster_transform) ←
    rasterio_mask env bc.raster shapefile_transformed.geometry true
  let vector_cropped ←
    gpd_overlay env shapefile_transformed
      (pyOfOptStr bc.geo_data.data.vector_path) "intersection"
  pure (raster_cropped, raster_transform, vector_cropped)

/-- `BothCropper.execute`: crop both, update the raster metadata, write the
cropped raster, then write the cropped vector. -/
def BothCropper.execute (env : Env) (bc : BothCropper) : M Unit := do
  let (raster_cropped, raster_transform, vector_cropped) ← bc.crop env
  let raster_meta := { bc.raster.src.meta with
      driver := "GTiff",
      height := raster_cropped.shape1,
      width := raster_cropped.shape2,
      transform := raster_transform }
  match bc.geo_data.getattr "output_raster_path" with
  | some (.str orp) =>
      withOpenWrite env (joinPath orp "raster_cropped.tif")
        (FileData.raster raster_meta raster_cropped)
  | _ => throw (PyErr.attributeError "output_raster_path")
  match bc.geo_data.getattr "output_vector_path" with
  | some (.str ovp) =>
      vector_to_file vector_cropped (joinPath ovp "vector_cropped.shp")
  | _ => throw (PyErr.attributeError "output_vector_path")

/-! ## merge_raster (MergeRaster.py lines 9-30) -/

/-- Python list indexing `l[i]`: raises `IndexError` out of range. -/
def listIdx (l : List α) (i : Nat) : M α :=
  match l.get? i with
  | some a => pure a
  | none => throw PyErr.indexError

/-- `[rasterio.open(path) for path in raster_paths]`: open the rasters left
to right; the first failure propagates (earlier handles stay open). -/
def openList (env : Env) : List String → M (List Dataset)
  | [] => pure []
  | p :: ps => do
    let d ← rasterio_open env (some p)
    let ds ← openList env ps
    pure (d :: ds)

/-- `merge_raster(raster_paths, output_path=None)`: open every input, merge,
copy the first input's metadata and update driver / height / width /
transform, default the output path to
`<dirname of first input>/raster_merged.tif` when absent, and write the
merged array with a scoped output handle. -/
def merge_raster (env : Env) (raster_paths : List String)
    (output_path : Option String) : M Unit := do
  let raster_files ← openList env raster_paths
  let (raster_merged, raster_transform) ← rasterio_merge env raster_files
  let f0 ← listIdx raster_files 0
  let raster_meta := { f0.src.meta with
      driver := "GTiff",
      height := raster_merged.shape1,
      width := raster_merged.shape2,
      transform := raster_transform }
  let out ←
    match output_path with
    | none => do
      let p0 ← listIdx raster_paths 0
      pure (joinPath (dirname p0) "raster_merged.tif")
    | some o => pure o
  withOpenWrite env out (FileData.raster raster_meta raster_merged)

/-! ## Application and Runner (ShapeCropper.py lines 187-196; the selection
logic itself is not in the repository sources) -/

/-- The closed set of cropper variants the spec's data model names. -/
inductive CropperVariant where
  | rasterOnly (rc : RasterCropper)
  | vectorOnly (vc : VectorCropper)
  | both (bc : BothCropper)
deriving DecidableEq

/-- Dynamic dispatch of `cropper.execute()` over the three variants. -/
def CropperVariant.execute (env : Env) : CropperVariant → M Unit
  | .rasterOnly rc => rc.execute env
  | .vectorOnly vc => vc.execute env
  | .both bc => bc.execute env

/-- The `Application` dataclass: holds the job and a cropper. -/
structure Application where
  geo_data : GeoJob
  cropper : CropperVariant

/-- `Application.execute`: invoke the held cropper's `execute`. -/
def Application.execute (env : Env) (app : Application) : M Unit :=
  app.cropper.execute env

/-- Modelled from the spec: the Runner's variant selection is not among the
repository's source files (only the `Application` class, which invokes a
cropper supplied by its caller, is).  Per the spec: "select RasterCropper if
only raster_path is set, VectorCropper if only vector_path is set,
CombinedCropper if both are set (job construction already guarantees at
least one is set)". -/
def runner_select (env : Env) (j : GeoJob) : M CropperVariant :=
  if truthy j.data.raster_path then
    if truthy j.data.vector_path then do
      pure (.both (← BothCropper.mk' env j))
    else do
      pure (.rasterOnly (← RasterCropper.mk' env j))
  else do
    pure (.vectorOnly (← VectorCropper.mk' env j))

/-- Modelled from the spec: the Runner constructs the selected variant and
invokes `execute()` on it through the `Application`. -/
def runner_run (env : Env) (j : GeoJob) : M Unit := do
  let c ← runner_select env j
  (Application.mk j c).execute env

end GeoApp

namespace GeoApp

/-! ## Run lemmas for the embedding's monad and primitives -/

theorem run_bind (x : M α) (f : α → M β) (w : World) :
    (x >>= f).run w = match x.run w with
      | .ok a w1 => (f a).run w1
      | .error e w1 => .error e w1 := by
  cases h : x.run w
  all_goals simp only [EStateM.run] at h
  all_goals show EStateM.bind x f w = _
  all_goals unfold EStateM.bind
  all_goals rw [h]
  all_goals try rfl

theorem run_pure (a : α) (w : World) : (pure a : M α).run w = .ok a w := rfl

theorem run_throw (e : PyErr) (w : World) :
    (throw e : M α).run w = .error e w := rfl

theorem run_mkdirP (p : String) (w : World) :
    (mkdirP p).run w = .ok () (mkdirApply p w) := rfl

theorem mkdirApply_dirs_mem (p q : String) (w : World) :
    q ∈ (mkdirApply p w).dirs ↔ q = p ∨ q ∈ w.dirs := by
  unfold mkdirApply
  by_cases h : w.dirs.contains p = true
  · simp only [h, if_true]
    have := List.elem_iff.mp h
    constructor
    · exact Or.inr
    · rintro (rfl | hq)
      · exact List.elem_iff.mp h
      · exact hq
  · rw [if_neg h]
    simp [List.mem_cons]

theorem mkdirApply_files (p : String) (w : World) :
    (mkdirApply p w).files = w.files := by
  unfold mkdirApply; split <;> rfl

theorem mkdirApply_openHandles (p : String) (w : World) :
    (mkdirApply p w).openHandles = w.openHandles := by
  unfold mkdirApply; split <;> rfl

theorem mkdirApply_nextHandle (p : String) (w : World) :
    (mkdirApply p w).nextHandle = w.nextHandle := by
  unfold mkdirApply; split <;> rfl

theorem mkdirApply_of_mem {p : String} {w : World} (h : p ∈ w.dirs) :
    mkdirApply p w = w := by
  unfold mkdirApply
  rw [if_pos (List.elem_iff.mpr h)]

theorem mem_mkdirApply_self (p : String) (w : World) :
    p ∈ (mkdirApply p w).dirs :=
  (mkdirApply_dirs_mem p p w).mpr (Or.inl rfl)

theorem mem_mkdirApply_of_mem (p : String) {q : String} {w : World}
    (h : q ∈ w.dirs) : q ∈ (mkdirApply p w).dirs :=
  (mkdirApply_dirs_mem p q w).mpr (Or.inr h)

theorem run_rasterio_open_none (env : Env) (w : World) :
    (rasterio_open env none).run w = .error PyErr.typeError w := rfl

theorem run_rasterio_open_ok (env : Env) {p : String} {src : RasterSrc}
    {w : World} (h : env.rasters p = some src) :
    (rasterio_open env (some p)).run w =
      .ok ⟨src, w.nextHandle⟩
        { w with openHandles := w.nextHandle :: w.openHandles,
                 nextHandle := w.nextHandle + 1 } := by
  simp only [rasterio_open, h]
  rfl

theorem run_rasterio_open_err (env : Env) {p : String} {w : World}
    (h : env.rasters p = none) :
    (rasterio_open env (some p)).run w = .error (PyErr.rasterioOpenError p) w := by
  simp only [rasterio_open, h]
  rfl

theorem run_gpd_read_file_ok (env : Env) {p : String} {df : GeoDataFrame}
    {w : World} (h : env.shapes p = some df) :
    (gpd_read_file env p).run w = .ok df w := by
  simp only [gpd_read_file, h]
  rfl

theorem run_gpd_read_file_err (env : Env) {p : String} {w : World}
    (h : env.shapes p = none) :
    (gpd_read_file env p).run w = .error (PyErr.readError p) w := by
  simp only [gpd_read_file, h]
  rfl

theorem run_rasterio_mask_ok (env : Env) {d : Dataset} {shapes : List Geom}
    {crop : Bool} {r : PixArray × Affine} {w : World}
    (h : env.mask d.src shapes crop = .ok r) :
    (rasterio_mask env d shapes crop).run w = .ok r w := by
  simp only [rasterio_mask, h]
  rfl

theorem run_rasterio_mask_err (env : Env) {d : Dataset} {shapes : List Geom}
    {crop : Bool} {e : PyErr} {w : World}
    (h : env.mask d.src shapes crop = .error e) :
    (rasterio_mask env d shapes crop).run w = .error e w := by
  simp only [rasterio_mask, h]
  rfl

theorem run_withOpenWrite_ok (env : Env) {path : String} {c : FileData}
    {w : World} (h : env.writable path = true) :
    (withOpenWrite env path c).run w =
      .ok () { w with files := (path, c) :: w.files,
                      nextHandle := w.nextHandle + 1 } := by
  simp only [withOpenWrite, h, if_true]
  show (EStateM.Result.ok () _ : EStateM.Result PyErr World Unit) = _
  simp [List.erase_cons_head]

theorem run_withOpenWrite_err (env : Env) {path : String} {c : FileData}
    {w : World} (h : env.writable path = false) :
    (withOpenWrite env path c).run w = .error (PyErr.openWriteError path) w := by
  simp only [withOpenWrite, h]
  rfl

theorem run_vector_to_file (df : GeoDataFrame) (path : String) (w : World) :
    (vector_to_file df path).run w =
      .ok () { w with files := (path, FileData.vector df) :: w.files } := rfl

theorem getattr_get_crs (j : GeoJob) : j.getattr "get_crs" = none := rfl

theorem getattr_output_raster_path (j : GeoJob) :
    j.getattr "output_raster_path" = j.output_raster_path.map PyObj.str := rfl

theorem getattr_output_vector_path (j : GeoJob) :
    j.getattr "output_vector_path" = j.output_vector_path.map PyObj.str := rfl

end GeoApp

namespace GeoApp

/-! ## Net effect of `GeoData.__post_init__` -/

/-- The world transform `__post_init__` performs on success: create the
output directory, then conditionally the raster / vector subdirectories. -/
def postDirs (gd : GeoData) (w : World) : World :=
  let w1 := mkdirApply gd.output_path w
  let w2 := if truthy gd.raster_path then
      mkdirApply (joinPath gd.output_path "output_raster") w1 else w1
  if truthy gd.vector_path then
    mkdirApply (joinPath gd.output_path "output_vector") w2 else w2

/-- The job record `__post_init__` produces on success. -/
def mkJob (gd : GeoData) : GeoJob :=
  ⟨gd,
   if truthy gd.raster_path then some (joinPath gd.output_path "output_raster") else none,
   if truthy gd.vector_path then some (joinPath gd.output_path "output_vector") else none⟩

theorem run_post_init_err {gd : GeoData} (w : World)
    (hr : truthy gd.raster_path = false) (hv : truthy gd.vector_path = false) :
    (gd.post_init).run w =
      .error (PyErr.valueError "At least one of raster or vector file should exist.") w := by
  simp [GeoData.post_init, hr, hv, run_bind, run_throw]

theorem run_post_init_ok {gd : GeoData} (w : World)
    (h : (truthy gd.raster_path || truthy gd.vector_path) = true) :
    (gd.post_init).run w = .ok (mkJob gd) (postDirs gd w) := by
  cases hr : truthy gd.raster_path <;> cases hv : truthy gd.vector_path
  · rw [hr, hv] at h; simp at h
  all_goals
    simp [GeoData.post_init, postDirs, mkJob, hr, hv, run_bind, run_mkdirP, run_pure]

theorem postDirs_files (gd : GeoData) (w : World) :
    (postDirs gd w).files = w.files := by
  unfold postDirs
  cases truthy gd.raster_path <;> cases truthy gd.vector_path <;>
    simp [mkdirApply_files]

theorem postDirs_openHandles (gd : GeoData) (w : World) :
    (postDirs gd w).openHandles = w.openHandles := by
  unfold postDirs
  cases truthy gd.raster_path <;> cases truthy gd.vector_path <;>
    simp [mkdirApply_openHandles]

theorem postDirs_nextHandle (gd : GeoData) (w : World) :
    (postDirs gd w).nextHandle = w.nextHandle := by
  unfold postDirs
  cases truthy gd.raster_path <;> cases truthy gd.vector_path <;>
    simp [mkdirApply_nextHandle]

theorem postDirs_dirs_mem (gd : GeoData) (w : World) (q : String) :
    q ∈ (postDirs gd w).dirs ↔
      q ∈ w.dirs ∨ q = gd.output_path ∨
      (truthy gd.raster_path = true ∧ q = joinPath gd.output_path "output_raster") ∨
      (truthy gd.vector_path = true ∧ q = joinPath gd.output_path "output_vector") := by
  unfold postDirs
  cases hr : truthy gd.raster_path <;> cases hv : truthy gd.vector_path <;>
    simp [mkdirApply_dirs_mem] <;> tauto

theorem postDirs_absorb {gd : GeoData} {w : World}
    (h1 : gd.output_path ∈ w.dirs)
    (h2 : truthy gd.raster_path = true →
      joinPath gd.output_path "output_raster" ∈ w.dirs)
    (h3 : truthy gd.vector_path = true →
      joinPath gd.output_path "output_vector" ∈ w.dirs) :
    postDirs gd w = w := by
  unfold postDirs
  cases hr : truthy gd.raster_path <;> cases hv : truthy gd.vector_path <;>
    simp only [if_true, if_false, Bool.true_eq_false, Bool.false_eq_true]
  · exact mkdirApply_of_mem h1
  · rw [mkdirApply_of_mem h1]; exact mkdirApply_of_mem (h3 hv)
  · rw [mkdirApply_of_mem h1]; exact mkdirApply_of_mem (h2 hr)
  · rw [mkdirApply_of_mem h1, mkdirApply_of_mem (h2 hr)]
    exact mkdirApply_of_mem (h3 hv)

theorem postDirs_idem (gd : GeoData) (w : World) :
    postDirs gd (postDirs gd w) = postDirs gd w :=
  postDirs_absorb
    ((postDirs_dirs_mem gd w _).mpr (Or.inr (Or.inl rfl)))
    (fun hr => (postDirs_dirs_mem gd w _).mpr (Or.inr (Or.inr (Or.inl ⟨hr, rfl⟩))))
    (fun hv => (postDirs_dirs_mem gd w _).mpr (Or.inr (Or.inr (Or.inr ⟨hv, rfl⟩))))

end GeoApp

namespace GeoApp

/-! ## Net effect of opening the input rasters in `merge_raster` -/

theorem openList_run_ok (env : Env) (ps : List String) : ∀ (w : World),
    (∀ q ∈ ps, (env.rasters q).isSome = true) →
    ∃ ds w', (openList env ps).run w = .ok ds w' ∧
      ds.map Dataset.src = ps.filterMap env.rasters ∧
      w'.dirs = w.dirs ∧ w'.files = w.files ∧
      w'.openHandles.length = w.openHandles.length + ps.length ∧
      w'.nextHandle = w.nextHandle + ps.length := by
  induction ps with
  | nil =>
    intro w _
    exact ⟨[], w, rfl, rfl, rfl, rfl, rfl, rfl⟩
  | cons p ps ih =>
    intro w h
    obtain ⟨src, hsrc⟩ :=
      Option.isSome_iff_exists.mp (h p (List.mem_cons_self p ps))
    obtain ⟨ds, w', hrun, hmap, hdirs, hfiles, hlen, hnext⟩ :=
      ih { w with openHandles := w.nextHandle :: w.openHandles,
                  nextHandle := w.nextHandle + 1 }
        (fun q hq => h q (List.mem_cons_of_mem p hq))
    refine ⟨⟨src, w.nextHandle⟩ :: ds, w', ?_, ?_, ?_, ?_, ?_, ?_⟩
    · simp only [openList, run_bind, run_rasterio_open_ok env hsrc, hrun, run_pure]
    · simp [hmap, List.filterMap_cons, hsrc]
    · exact hdirs
    · exact hfiles
    · simp only [hlen]
      simp [Nat.add_comm, Nat.add_assoc, Nat.add_left_comm]
    · simp only [hnext]
      simp [Nat.add_comm, Nat.add_assoc, Nat.add_left_comm]

theorem openList_run_err (env : Env) (ps : List String) : ∀ (w : World),
    (∃ p ∈ ps, env.rasters p = none) →
    ∃ p' w', (openList env ps).run w = .error (PyErr.rasterioOpenError p') w' ∧
      env.rasters p' = none ∧ w'.dirs = w.dirs ∧ w'.files = w.files := by
  induction ps with
  | nil =>
    rintro w ⟨p, hp, -⟩
    exact absurd hp (List.not_mem_nil p)
  | cons p ps ih =>
    rintro w ⟨q, hq, hnone⟩
    cases hp : env.rasters p with
    | none =>
      refine ⟨p, w, ?_, hp, rfl, rfl⟩
      simp only [openList, run_bind, run_rasterio_open_err env hp]
    | some src =>
      have hq' : q ∈ ps := by
        rcases List.mem_cons.mp hq with h | h
        · subst h; rw [hp] at hnone; exact absurd hnone (by simp)
        · exact h
      obtain ⟨p', w', hrun, hn, hdirs, hfiles⟩ :=
        ih { w with openHandles := w.nextHandle :: w.openHandles,
                    nextHandle := w.nextHandle + 1 } ⟨q, hq', hnone⟩
      refine ⟨p', w', ?_, hn, hdirs, hfiles⟩
      simp only [openList, run_bind, run_rasterio_open_ok env hp, hrun]

end GeoApp

namespace GeoApp

/-! ## Net effect of a successful `merge_raster` -/

theorem run_rasterio_merge_cons (env : Env) (d : Dataset) (ds : List Dataset)
    (w : World) :
    (rasterio_merge env (d :: ds)).run w =
      .ok (env.mergeResult ((d :: ds).map Dataset.src)) w := rfl

theorem run_rasterio_merge_nil (env : Env) (w : World) :
    (rasterio_merge env []).run w = .error PyErr.indexError w := rfl

theorem run_listIdx_zero (l : List α) (a : α) (w : World) :
    (listIdx (a :: l) 0).run w = .ok a w := rfl

theorem merge_raster_run_ok (env : Env) (p : String) (ps : List String)
    (out : Option String) (w : World) (s0 : RasterSrc)
    (h0 : env.rasters p = some s0)
    (hall : ∀ q ∈ ps, (env.rasters q).isSome = true)
    (hw : env.writable (out.getD (joinPath (dirname p) "raster_merged.tif")) = true) :
    ∃ w', (merge_raster env (p :: ps) out).run w = .ok () w' ∧
      w'.files = (out.getD (joinPath (dirname p) "raster_merged.tif"),
        FileData.raster
          { s0.meta with
            driver := "GTiff",
            height := (env.mergeResult ((p :: ps).filterMap env.rasters)).1.shape1,
            width := (env.mergeResult ((p :: ps).filterMap env.rasters)).1.shape2,
            transform := (env.mergeResult ((p :: ps).filterMap env.rasters)).2 }
          (env.mergeResult ((p :: ps).filterMap env.rasters)).1) :: w.files ∧
      w'.dirs = w.dirs ∧
      w'.openHandles.length = w.openHandles.length + ps.length + 1 ∧
      w'.nextHandle = w.nextHandle + ps.length + 2 := by
  have hfm : (p :: ps).filterMap env.rasters = s0 :: ps.filterMap env.rasters := by
    simp [List.filterMap_cons, h0]
  obtain ⟨ds, w1, hrun, hmap, hdirs, hfiles, hlen, hnext⟩ :=
    openList_run_ok env (p :: ps) w (by
      intro q hq
      rcases List.mem_cons.mp hq with rfl | hq
      · simp [h0]
      · exact hall q hq)
  rw [hfm] at hmap
  cases ds with
  | nil => simp at hmap
  | cons d0 ds' =>
    rw [List.map_cons] at hmap
    injection hmap with hd0 hmap'
    cases out with
    | none =>
      refine ⟨{ w1 with
          files := (joinPath (dirname p) "raster_merged.tif",
            FileData.raster
              { d0.src.meta with
                driver := "GTiff",
                height := (env.mergeResult (d0.src :: ds'.map Dataset.src)).1.shape1,
                width := (env.mergeResult (d0.src :: ds'.map Dataset.src)).1.shape2,
                transform := (env.mergeResult (d0.src :: ds'.map Dataset.src)).2 }
              (env.mergeResult (d0.src :: ds'.map Dataset.src)).1) :: w1.files,
          nextHandle := w1.nextHandle + 1 }, ?_, ?_, ?_, ?_, ?_⟩
      · simp only [Option.getD] at hw
        simp only [merge_raster, run_bind, hrun, run_rasterio_merge_cons,
          run_listIdx_zero, run_pure, List.map_cons,
          run_withOpenWrite_ok env hw]
      · simp only [hfiles, hd0, hmap', hfm, Option.getD]
      · exact hdirs
      · simp only [hlen, List.length_cons]
        omega
      · simp only [hnext, List.length_cons]
        omega
    | some o =>
      refine ⟨{ w1 with
          files := (o,
            FileData.raster
              { d0.src.meta with
                driver := "GTiff",
                height := (env.mergeResult (d0.src :: ds'.map Dataset.src)).1.shape1,
                width := (env.mergeResult (d0.src :: ds'.map Dataset.src)).1.shape2,
                transform := (env.mergeResult (d0.src :: ds'.map Dataset.src)).2 }
              (env.mergeResult (d0.src :: ds'.map Dataset.src)).1) :: w1.files,
          nextHandle := w1.nextHandle + 1 }, ?_, ?_, ?_, ?_, ?_⟩
      · simp only [Option.getD] at hw
        simp only [merge_raster, run_bind, hrun, run_rasterio_merge_cons,
          run_listIdx_zero, run_pure, List.map_cons,
          run_withOpenWrite_ok env hw]
      · simp only [hfiles, hd0, hmap', hfm, Option.getD]
      · exact hdirs
      · simp only [hlen, List.length_cons]
        omega
      · simp only [hnext, List.length_cons]
        omega

end GeoApp

namespace GeoApp

/-! ## Concrete fixtures used by witnesses and counterexamples -/

deriving instance DecidableEq for EStateM.Result

/-- Pixel data of the raster at `a.tif`. -/
def pixA : PixArray := ⟨1, 10, 12, 100⟩

/-- Pixel data of the raster at `b.tif`. -/
def pixB : PixArray := ⟨1, 10, 12, 101⟩

/-- Pixel result of the mask primitive in the test environment. -/
def pixC : PixArray := ⟨1, 4, 5, 102⟩

/-- Pixel result of the merge primitive in the test environment. -/
def pixM : PixArray := ⟨1, 20, 12, 103⟩

/-- Metadata of the raster at `a.tif`. -/
def metaA : RasterMeta := ⟨"GTiff", 10, 12, 3, "EPSG:32601", 1, "uint8"⟩

/-- Metadata of the raster at `b.tif`. -/
def metaB : RasterMeta := ⟨"GTiff", 10, 12, 4, "EPSG:32601", 1, "uint8"⟩

/-- The raster at `a.tif`. -/
def srcA : RasterSrc := ⟨metaA, pixA⟩

/-- The raster at `b.tif`. -/
def srcB : RasterSrc := ⟨metaB, pixB⟩

/-- The shapefile at `s.shp`. -/
def dfS : GeoDataFrame := ⟨"EPSG:4326", [1, 2]⟩

/-- A concrete environment: two openable rasters, one readable shapefile,
identity reprojection, total mask / merge / overlay primitives, all paths
writable. -/
def testEnv : Env where
  rasters := fun p =>
    if p = "a.tif" then some srcA else if p = "b.tif" then some srcB else none
  shapes := fun p => if p = "s.shp" then some dfS else none
  reproject := fun gs _ _ => gs
  mask := fun _ _ _ => .ok (pixC, 8)
  mergeResult := fun _ => (pixM, 9)
  overlayResult := fun d1 _ _ => d1
  writable := fun _ => true

/-- The empty initial world. -/
def w0 : World := ⟨[], [], [], 0⟩

/-- A raster-only `GeoData`. -/
def gdR : GeoData := ⟨"s.shp", some "a.tif", none, "out"⟩

/-- A vector-only `GeoData`. -/
def gdV : GeoData := ⟨"s.shp", none, some "v.shp", "out"⟩

/-- A `GeoData` with both raster and vector inputs. -/
def gdB : GeoData := ⟨"s.shp", some "a.tif", some "v.shp", "out"⟩

/-- The raster-only job as `__post_init__` constructs it. -/
def jR : GeoJob := mkJob gdR

/-- The vector-only job as `__post_init__` constructs it. -/
def jV : GeoJob := mkJob gdV

/-- The both-inputs job as `__post_init__` constructs it. -/
def jB : GeoJob := mkJob gdB

/-! ## The claims -/

/-- C1: for every GeoData job with `raster_path` set (and an openable raster,
readable shapefile, writable output), `RasterCropper` opens the raster
dataset and keeps the handle alive for the whole operation (the handle
`w.nextHandle` is still open in the final world); `execute()` reprojects the
shapefile to the raster's CRS, masks the raster with the reprojected
polygons with `crop=True` (visible in the `true` argument of the mask
hypothesis), and writes to `<output_raster_path>/raster_cropped.tif` the
cropped pixels under the dataset's metadata updated in exactly the fields
driver (`"GTiff"`), height, width and transform; nothing else in the world
changes. -/
theorem C1_raster_cropper_execute (env : Env) (j : GeoJob) (w : World)
    (p : String) (src : RasterSrc) (sf : GeoDataFrame) (pix : PixArray)
    (tr : Affine) (orp : String)
    (hp : j.data.raster_path = some p)
    (hsrc : env.rasters p = some src)
    (hsf : env.shapes j.data.shapefile_path = some sf)
    (horp : j.output_raster_path = some orp)
    (hmask : env.mask src (sf.to_crs env src.meta.crs).geometry true = .ok (pix, tr))
    (hw : env.writable (joinPath orp "raster_cropped.tif") = true) :
    (raster_cropper_run env j).run w =
      .ok () { dirs := w.dirs,
               files := (joinPath orp "raster_cropped.tif",
                 FileData.raster
                   { src.meta with
                     driver := "GTiff",
                     height := pix.shape1,
                     width := pix.shape2,
                     transform := tr } pix) :: w.files,
               openHandles := w.nextHandle :: w.openHandles,
               nextHandle := w.nextHandle + 2 } := by
  simp only [raster_cropper_run, RasterCropper.mk', RasterCropper.execute,
    RasterCropper.crop, RasterCropper.transform_crs, Dataset.crs, hp,
    run_bind, run_pure,
    run_rasterio_open_ok env hsrc,
    run_gpd_read_file_ok env hsf,
    run_rasterio_mask_ok (d := Dataset.mk src w.nextHandle) env hmask,
    getattr_output_raster_path, horp, Option.map_some, Option.map_some',
    run_withOpenWrite_ok env hw]

/-- C1 witness: the theorem applied at the test environment and the
raster-only job. -/
theorem C1_raster_cropper_execute_witness :
    (raster_cropper_run testEnv jR).run w0 =
      .ok () { dirs := w0.dirs,
               files := (joinPath "out/output_raster" "raster_cropped.tif",
                 FileData.raster
                   { srcA.meta with
                     driver := "GTiff",
                     height := pixC.shape1,
                     width := pixC.shape2,
                     transform := 8 } pixC) :: w0.files,
               openHandles := w0.nextHandle :: w0.openHandles,
               nextHandle := w0.nextHandle + 2 } :=
  C1_raster_cropper_execute testEnv jR w0 "a.tif" srcA dfS pixC 8
    "out/output_raster" rfl rfl rfl rfl rfl rfl

/-- C2: for a non-empty sequence of openable raster paths, `merge_raster`
writes exactly one output file, whose metadata is the first input raster's
metadata updated only in driver (`"GTiff"`), height and width (the merged
array's shape) and transform (from the external merge primitive); when
`output_path` is `None` the file goes to
`<directory of the first input>/raster_merged.tif`. -/
theorem C2_merge_raster_output (env : Env) (p : String) (ps : List String)
    (out : Option String) (w : World) (s0 : RasterSrc)
    (h0 : env.rasters p = some s0)
    (hall : ∀ q ∈ ps, (env.rasters q).isSome = true)
    (hw : env.writable (out.getD (joinPath (dirname p) "raster_merged.tif")) = true) :
    ∃ w', (merge_raster env (p :: ps) out).run w = .ok () w' ∧
      w'.files = (out.getD (joinPath (dirname p) "raster_merged.tif"),
        FileData.raster
          { s0.meta with
            driver := "GTiff",
            height := (env.mergeResult ((p :: ps).filterMap env.rasters)).1.shape1,
            width := (env.mergeResult ((p :: ps).filterMap env.rasters)).1.shape2,
            transform := (env.mergeResult ((p :: ps).filterMap env.rasters)).2 }
          (env.mergeResult ((p :: ps).filterMap env.rasters)).1) :: w.files ∧
      w'.dirs = w.dirs := by
  obtain ⟨w', hrun, hfiles, hdirs, -, -⟩ :=
    merge_raster_run_ok env p ps out w s0 h0 hall hw
  exact ⟨w', hrun, hfiles, hdirs⟩

/-- C2 witness: merging `a.tif` and `b.tif` with no output path. -/
theorem C2_merge_raster_output_witness :
    ∃ w', (merge_raster testEnv ["a.tif", "b.tif"] none).run w0 = .ok () w' ∧
      w'.files = ((none : Option String).getD
          (joinPath (dirname "a.tif") "raster_merged.tif"),
        FileData.raster
          { srcA.meta with
            driver := "GTiff",
            height := (testEnv.mergeResult
              (["a.tif", "b.tif"].filterMap testEnv.rasters)).1.shape1,
            width := (testEnv.mergeResult
              (["a.tif", "b.tif"].filterMap testEnv.rasters)).1.shape2,
            transform := (testEnv.mergeResult
              (["a.tif", "b.tif"].filterMap testEnv.rasters)).2 }
          (testEnv.mergeResult
            (["a.tif", "b.tif"].filterMap testEnv.rasters)).1) :: w0.files ∧
      w'.dirs = w0.dirs :=
  C2_merge_raster_output testEnv "a.tif" ["b.tif"] none w0 srcA rfl
    (by decide) rfl

end GeoApp

namespace GeoApp

/-- C3: constructing a GeoData job fails with `ValueError` exactly when
neither `raster_path` nor `vector_path` is supplied (supplied in the
Python-truthiness sense the source tests: non-`None` and non-empty); on
failure the world is untouched (no output directory is created); on success
the job holds the original data and satisfies the invariant that at least
one of the two paths is set. -/
theorem C3_geodata_validation (gd : GeoData) (w : World) :
    (truthy gd.raster_path = false ∧ truthy gd.vector_path = false →
      (gd.post_init).run w =
        .error (PyErr.valueError "At least one of raster or vector file should exist.") w) ∧
    ((truthy gd.raster_path = true ∨ truthy gd.vector_path = true) →
      ∃ j w', (gd.post_init).run w = .ok j w' ∧ j.data = gd ∧
        (truthy j.data.raster_path = true ∨ truthy j.data.vector_path = true)) := by
  constructor
  · rintro ⟨hr, hv⟩
    exact run_post_init_err w hr hv
  · intro h
    have hb : (truthy gd.raster_path || truthy gd.vector_path) = true := by
      rcases h with h | h <;> simp [h]
    exact ⟨mkJob gd, postDirs gd w, run_post_init_ok w hb, rfl, by simpa [mkJob]⟩

/-- C3 witness: a job with neither path fails and leaves the world alone; the
raster-only job succeeds with its invariant. -/
theorem C3_geodata_validation_witness :
    ((GeoData.post_init ⟨"s.shp", none, none, "out"⟩).run w0 =
      .error (PyErr.valueError "At least one of raster or vector file should exist.") w0) ∧
    ∃ j w', (GeoData.post_init gdR).run w0 = .ok j w' ∧ j.data = gdR ∧
      (truthy j.data.raster_path = true ∨ truthy j.data.vector_path = true) :=
  ⟨(C3_geodata_validation ⟨"s.shp", none, none, "out"⟩ w0).1 ⟨rfl, rfl⟩,
   (C3_geodata_validation gdR w0).2 (Or.inl rfl)⟩

/-- C4: `VectorCropper.transform_crs` looks up the attribute `get_crs` on the
job object, which is defined nowhere in the data model, so for every
environment, every constructed `VectorCropper` and every world it raises
`AttributeError` with the state unchanged; consequently `execute()` raises
the same error and writes no output vector file (the world, in particular
its file list, is exactly the input world). -/
theorem C4_vector_cropper_attribute_error (env : Env) (vc : VectorCropper)
    (w : World) :
    (VectorCropper.transform_crs env vc).run w =
      .error (PyErr.attributeError "get_crs") w ∧
    (VectorCropper.execute env vc).run w =
      .error (PyErr.attributeError "get_crs") w := by
  constructor
  · simp only [VectorCropper.transform_crs, getattr_get_crs, run_throw]
  · simp only [VectorCropper.execute, VectorCropper.crop,
      VectorCropper.transform_crs, getattr_get_crs, run_bind, run_throw]

/-- C10: the validation in `GeoData.__post_init__` tests Python truthiness
rather than comparing with `None`, so a job whose `raster_path` and
`vector_path` are each either `None` or the empty string raises the
configuration `ValueError` (with the world untouched). -/
theorem C10_empty_string_as_absent (sp op : String) (r v : Option String)
    (w : World) (hr : r = none ∨ r = some "") (hv : v = none ∨ v = some "") :
    (GeoData.post_init ⟨sp, r, v, op⟩).run w =
      .error (PyErr.valueError "At least one of raster or vector file should exist.") w := by
  refine run_post_init_err w ?_ ?_
  · rcases hr with rfl | rfl <;> rfl
  · rcases hv with rfl | rfl <;> rfl

/-- C10 witness: the empty-string raster path together with an absent vector
path is rejected. -/
theorem C10_empty_string_as_absent_witness :
    (GeoData.post_init ⟨"s.shp", some "", none, "out"⟩).run w0 =
      .error (PyErr.valueError "At least one of raster or vector file should exist.") w0 :=
  C10_empty_string_as_absent "s.shp" "out" (some "") none w0
    (Or.inr rfl) (Or.inl rfl)

end GeoApp

namespace GeoApp

/-- C5: the Runner (its selection logic modelled from the spec, since only
the `Application` class is in the sources) selects the raster-only variant
when only `raster_path` is set, the vector-only variant when only
`vector_path` is set, and the combined variant when both are set, and in
each case invokes `execute()` on the selected variant through
`Application.execute`. -/
theorem C5_runner_dispatch (env : Env) (j : GeoJob) (w : World) :
    ((truthy j.data.raster_path = true ∧ truthy j.data.vector_path = false) →
      ∀ rc w1, (RasterCropper.mk' env j).run w = .ok rc w1 →
        (runner_run env j).run w = (RasterCropper.execute env rc).run w1) ∧
    ((truthy j.data.raster_path = false ∧ truthy j.data.vector_path = true) →
      ∀ vc w1, (VectorCropper.mk' env j).run w = .ok vc w1 →
        (runner_run env j).run w = (VectorCropper.execute env vc).run w1) ∧
    ((truthy j.data.raster_path = true ∧ truthy j.data.vector_path = true) →
      ∀ bc w1, (BothCropper.mk' env j).run w = .ok bc w1 →
        (runner_run env j).run w = (BothCropper.execute env bc).run w1) := by
  refine ⟨?_, ?_, ?_⟩
  · rintro ⟨hr, hv⟩ c w1 hmk
    simp [runner_run, runner_select, hr, hv, run_bind, hmk, run_pure,
      Application.execute, CropperVariant.execute]
  · rintro ⟨hr, hv⟩ c w1 hmk
    simp [runner_run, runner_select, hr, hv, run_bind, hmk, run_pure,
      Application.execute, CropperVariant.execute]
  · rintro ⟨hr, hv⟩ c w1 hmk
    simp [runner_run, runner_select, hr, hv, run_bind, hmk, run_pure,
      Application.execute, CropperVariant.execute]

/-- The world after opening the raster at `a.tif` from the empty world. -/
def w1R : World := ⟨[], [], [0], 1⟩

/-- C5 witness: the three dispatch cases at the test environment. -/
theorem C5_runner_dispatch_witness :
    ((runner_run testEnv jR).run w0 =
      (RasterCropper.execute testEnv ⟨jR, ⟨srcA, 0⟩⟩).run w1R) ∧
    ((runner_run testEnv jV).run w0 =
      (VectorCropper.execute testEnv ⟨jV, dfS⟩).run w0) ∧
    ((runner_run testEnv jB).run w0 =
      (BothCropper.execute testEnv ⟨jB, ⟨srcA, 0⟩, dfS⟩).run w1R) :=
  ⟨(C5_runner_dispatch testEnv jR w0).1 ⟨rfl, rfl⟩ _ _ rfl,
   (C5_runner_dispatch testEnv jV w0).2.1 ⟨rfl, rfl⟩ _ _ rfl,
   (C5_runner_dispatch testEnv jB w0).2.2 ⟨rfl, rfl⟩ _ _ rfl⟩

/-- C6 (code bug): `BothCropper.crop` passes the raw `vector_path` value to
`gpd.overlay` instead of a loaded vector layer, so even when the raster
mask-crop succeeds, `execute()` raises `NotImplementedError` and writes
neither output file (the world is unchanged), contradicting the claimed
write of both outputs. -/
theorem C6_both_cropper_overlay_failure (env : Env) (bc : BothCropper)
    (w : World) (pix : PixArray) (tr : Affine)
    (hmask : env.mask bc.raster.src
      (bc.shapefile.to_crs env bc.raster.crs).geometry true = .ok (pix, tr)) :
    (BothCropper.execute env bc).run w = .error PyErr.notImplementedError w := by
  cases hv : bc.geo_data.data.vector_path <;>
    simp only [BothCropper.execute, BothCropper.crop, BothCropper.transform_crs,
      run_bind, run_pure, run_rasterio_mask_ok (d := bc.raster) env hmask,
      gpd_overlay, pyOfOptStr, hv, run_throw]

/-- C6 witness: the failure at the concrete both-inputs job. -/
theorem C6_both_cropper_overlay_failure_witness :
    (BothCropper.execute testEnv ⟨jB, ⟨srcA, 0⟩, dfS⟩).run w0 =
      .error PyErr.notImplementedError w0 :=
  C6_both_cropper_overlay_failure testEnv ⟨jB, ⟨srcA, 0⟩, dfS⟩ w0 pixC 8 rfl

/-- C7: on successful construction the output root is created if absent, the
`output_raster` subdirectory exactly when `raster_path` is set and the
`output_vector` subdirectory exactly when `vector_path` is set (the
membership characterisation shows no other directory appears — in
particular a raster-only job never creates `output_vector`); files and
handles are untouched; and construction is idempotent: run again on the
resulting world it succeeds with the same job and the world unchanged. -/
theorem C7_output_directories (gd : GeoData) (w : World)
    (h : truthy gd.raster_path = true ∨ truthy gd.vector_path = true) :
    ∃ j w', (gd.post_init).run w = .ok j w' ∧
      (∀ q, q ∈ w'.dirs ↔ q ∈ w.dirs ∨ q = gd.output_path ∨
        (truthy gd.raster_path = true ∧ q = joinPath gd.output_path "output_raster") ∨
        (truthy gd.vector_path = true ∧ q = joinPath gd.output_path "output_vector")) ∧
      w'.files = w.files ∧ w'.openHandles = w.openHandles ∧
      (gd.post_init).run w' = .ok j w' := by
  have hb : (truthy gd.raster_path || truthy gd.vector_path) = true := by
    rcases h with h | h <;> simp [h]
  refine ⟨mkJob gd, postDirs gd w, run_post_init_ok w hb, ?_,
    postDirs_files gd w, postDirs_openHandles gd w, ?_⟩
  · exact fun q => postDirs_dirs_mem gd w q
  · rw [run_post_init_ok _ hb, postDirs_idem]

/-- C7 witness: the raster-only job on the empty world. -/
theorem C7_output_directories_witness :
    ∃ j w', (GeoData.post_init gdR).run w0 = .ok j w' ∧
      (∀ q, q ∈ w'.dirs ↔ q ∈ w0.dirs ∨ q = gdR.output_path ∨
        (truthy gdR.raster_path = true ∧ q = joinPath gdR.output_path "output_raster") ∨
        (truthy gdR.vector_path = true ∧ q = joinPath gdR.output_path "output_vector")) ∧
      w'.files = w0.files ∧ w'.openHandles = w0.openHandles ∧
      (GeoData.post_init gdR).run w' = .ok j w' :=
  C7_output_directories gdR w0 (Or.inl rfl)

/-- C8: `merge_raster` on the empty sequence fails with the index error
(raised inside the merge primitive, which reads the first dataset) with the
world untouched; when some input path cannot be opened, the first such open
error propagates, and in either failure case no output file is written (the
file list — and directory list — of the error world equal the input's). -/
theorem C8_merge_raster_failures (env : Env) (w : World) (out : Option String)
    (ps : List String) :
    ((merge_raster env [] out).run w = .error PyErr.indexError w) ∧
    ((∃ p ∈ ps, env.rasters p = none) →
      ∃ p' w', (merge_raster env ps out).run w =
          .error (PyErr.rasterioOpenError p') w' ∧
        env.rasters p' = none ∧ w'.files = w.files ∧ w'.dirs = w.dirs) := by
  constructor
  · simp only [merge_raster, openList, run_bind, run_pure, run_rasterio_merge_nil]
  · intro h
    obtain ⟨p', w', hrun, hn, hdirs, hfiles⟩ := openList_run_err env ps w h
    exact ⟨p', w', by simp only [merge_raster, run_bind, hrun], hn, hfiles, hdirs⟩

/-- C8 witness: the empty sequence, and a sequence with an unopenable path. -/
theorem C8_merge_raster_failures_witness :
    ((merge_raster testEnv [] none).run w0 = .error PyErr.indexError w0) ∧
    ∃ p' w', (merge_raster testEnv ["zzz.tif"] none).run w0 =
        .error (PyErr.rasterioOpenError p') w' ∧
      testEnv.rasters p' = none ∧ w'.files = w0.files ∧ w'.dirs = w0.dirs :=
  ⟨(C8_merge_raster_failures testEnv w0 none ["zzz.tif"]).1,
   (C8_merge_raster_failures testEnv w0 none ["zzz.tif"]).2
     ⟨"zzz.tif", List.mem_singleton.mpr rfl, rfl⟩⟩

/-- The world `merge_raster` leaves behind in the C9 counterexample: the
output file was written and its handle closed, but the input dataset's
handle (0) is still open when the call returns. -/
def w9 : World :=
  ⟨[], [("raster_merged.tif",
    FileData.raster ⟨"GTiff", 20, 12, 9, "EPSG:32601", 1, "uint8"⟩ pixM)],
   [0], 2⟩

/-- C9 counterexample: a successful `merge_raster` run returns with the
input dataset handle still open — the inputs are not closed before the
operation returns, refuting the claimed symmetric close discipline. -/
theorem C9_input_handle_left_open :
    (merge_raster testEnv ["a.tif"] none).run w0 = .ok () w9 ∧
    w9.openHandles ≠ w0.openHandles :=
  ⟨by decide, by decide⟩

/-- C9 amended: the output file handle is scoped and closed on all exit
paths (after a successful `merge_raster` exactly the handles of the inputs
have been added to the open set — the extra allocated handle, the output's,
is closed again — and `RasterCropper.execute` leaves the open-handle set
unchanged while consuming one handle identifier for its scoped output);
the input datasets, however, are never closed before the operation
returns. -/
theorem C9_amended_handle_discipline :
    (∀ (env : Env) (p : String) (ps : List String) (out : Option String)
      (w : World) (s0 : RasterSrc),
      env.rasters p = some s0 →
      (∀ q ∈ ps, (env.rasters q).isSome = true) →
      env.writable (out.getD (joinPath (dirname p) "raster_merged.tif")) = true →
      ∃ w', (merge_raster env (p :: ps) out).run w = .ok () w' ∧
        w'.openHandles.length = w.openHandles.length + ps.length + 1 ∧
        w'.nextHandle = w.nextHandle + ps.length + 2) ∧
    (∀ (env : Env) (rc : RasterCropper) (w : World) (sf : GeoDataFrame)
      (pix : PixArray) (tr : Affine) (orp : String),
      env.shapes rc.geo_data.data.shapefile_path = some sf →
      env.mask rc.raster.src (sf.to_crs env rc.raster.crs).geometry true =
        .ok (pix, tr) →
      rc.geo_data.output_raster_path = some orp →
      env.writable (joinPath orp "raster_cropped.tif") = true →
      ∃ w', (RasterCropper.execute env rc).run w = .ok () w' ∧
        w'.openHandles = w.openHandles ∧ w'.nextHandle = w.nextHandle + 1) := by
  constructor
  · intro env p ps out w s0 h0 hall hw
    obtain ⟨w', hrun, -, -, hlen, hnext⟩ :=
      merge_raster_run_ok env p ps out w s0 h0 hall hw
    exact ⟨w', hrun, hlen, hnext⟩
  · intro env rc w sf pix tr orp hsf hmask horp hw
    refine ⟨{ w with
        files := (joinPath orp "raster_cropped.tif",
          FileData.raster
            { rc.raster.src.meta with
              driver := "GTiff",
              height := pix.shape1,
              width := pix.shape2,
              transform := tr } pix) :: w.files,
        nextHandle := w.nextHandle + 1 }, ?_, rfl, rfl⟩
    simp only [RasterCropper.execute, RasterCropper.crop,
      RasterCropper.transform_crs, run_bind, run_pure,
      run_gpd_read_file_ok env hsf,
      run_rasterio_mask_ok (d := rc.raster) env hmask,
      getattr_output_raster_path, horp, Option.map_some, Option.map_some',
      run_withOpenWrite_ok env hw]

/-- C9 amended witness: both parts at the test environment. -/
theorem C9_amended_handle_discipline_witness :
    (∃ w', (merge_raster testEnv ["a.tif"] none).run w0 = .ok () w' ∧
      w'.openHandles.length =
        w0.openHandles.length + ([] : List String).length + 1 ∧
      w'.nextHandle = w0.nextHandle + ([] : List String).length + 2) ∧
    (∃ w', (RasterCropper.execute testEnv ⟨jR, ⟨srcA, 5⟩⟩).run w0 = .ok () w' ∧
      w'.openHandles = w0.openHandles ∧ w'.nextHandle = w0.nextHandle + 1) :=
  ⟨C9_amended_handle_discipline.1 testEnv "a.tif" [] none w0 srcA rfl
      (fun q hq => absurd hq (List.not_mem_nil q)) rfl,
   C9_amended_handle_discipline.2 testEnv ⟨jR, ⟨srcA, 5⟩⟩ w0 dfS pixC 8
      "out/output_raster" rfl rfl rfl rfl⟩

end GeoApp
